import Mathlib

/-!
Shallow embedding of `app.py` from the consultor-marcas-impi repository.

The program has three meaningful pieces:
* `analizar_con_gemini` (AI Advisor): queries a generative service over a
  prioritized model list, returning the first successfully parsed result, or a
  fixed fallback when the service is unavailable or every model fails.  It is
  wrapped in an `lru_cache`; we model the cache explicitly as an association
  list, and we model the Python aliasing of cached dict objects (the handler
  mutates the dict returned by the cached function, which mutates the cache
  entry itself) by writing the merged result back into the cache.
* `buscar_en_marcanet_http` (Registry Prober): a GET then a POST against the
  IMPI registry, classifying the response body by substring heuristics.  The
  network is abstracted as an `ImpiEnv` giving the outcome of each request;
  `BeautifulSoup`'s `soup.find('table')` is abstracted as a boolean on the
  response.
* `consultar` (handler): input validation, then Advisor, then Prober, then the
  inline merge step adjusting the advisor result by the registry outcome.

Python strings are modelled as Lean `String`; `str.lower`, `str.upper` and
`str.strip` are modelled character-wise over `String.data` (the source only
feeds ASCII-relevant data through them); the `in` substring test is
`esInfijo` over the character lists.  Scores are `Int` (JSON numbers).
-/

/-- The analysis dict built by `analizar_con_gemini` (keys `viabilidad`,
`clases`, `nota`, `recomendaciones`); the handler later adds the key
`status_impi`, modelled as an `Option` that is `none` until the handler sets
it. -/
structure AnalysisDict where
  viabilidad : Int
  clases : List String
  nota : String
  recomendaciones : List String
  status_impi : Option String := none
deriving DecidableEq

/-- Fallback returned by `analizar_con_gemini` when `GEMINI_AVAILABLE` is
false (app.py lines 31-37). -/
def fallback_sin_ia : AnalysisDict :=
  { viabilidad := 50
    clases := ["IA no disponible - Consulta manual requerida"]
    nota := "El análisis de IA no está disponible. Verifica la configuración de API Key."
    recomendaciones := ["Consultar con un abogado especializado en propiedad industrial"] }

/-- Fallback returned by `analizar_con_gemini` when every model fails
(app.py lines 103-113). -/
def fallback_error : AnalysisDict :=
  { viabilidad := 50
    clases := ["Análisis automático no disponible"]
    nota := "No se pudo completar el análisis con IA. Se recomienda consulta manual."
    recomendaciones :=
      ["Consultar con un abogado especializado en propiedad industrial",
       "Verificar manualmente en https://marcanet.impi.gob.mx"] }

/-- One iteration of the model loop of `analizar_con_gemini` (app.py lines
66-98): either the generation or the JSON parse raises (the loop continues),
or the response text parses to a dict. -/
inductive ModelAttempt where
  | raises (msg : String)
  | parses (resultado : AnalysisDict)
deriving DecidableEq

/-- The `for modelo_nombre in modelos_a_probar` loop: the first attempt whose
text parses is returned immediately; `none` when all attempts fail. -/
def primerExito : List ModelAttempt → Option AnalysisDict
  | [] => none
  | ModelAttempt.raises _ :: rest => primerExito rest
  | ModelAttempt.parses r :: _ => some r

/-- `analizar_con_gemini(marca, descripcion)` (app.py lines 28-113), with the
service environment made explicit: `geminiAvailable` is the module-level
`GEMINI_AVAILABLE` flag, `attempts` is the behaviour of the generative service
on each model of `modelos_a_probar`.  Returns the fallback when unavailable,
the first parsed result otherwise, and the error fallback when all models
fail. -/
def analizar_con_gemini (geminiAvailable : Bool) (attempts : List ModelAttempt)
    (_marca _descripcion : String) : AnalysisDict :=
  if !geminiAvailable then fallback_sin_ia
  else
    match primerExito attempts with
    | some resultado => resultado
    | none => fallback_error

/-- Python `str.lower()` (ASCII case mapping, as used on the IMPI response
text). -/
def lowerStr (s : String) : String := String.mk (s.data.map Char.toLower)

/-- Contiguous-sublist (infix) test on character lists. -/
def esInfijo (needle : List Char) : List Char → Bool
  | [] => needle.isEmpty
  | c :: rest => needle.isPrefixOf (c :: rest) || esInfijo needle rest

/-- Python `needle in hay` substring test. -/
def containsSub (hay needle : String) : Bool := esInfijo needle.data hay.data

/-- The `no_resultados` phrase list of `buscar_en_marcanet_http` (app.py lines
145-150). -/
def no_resultados : List String :=
  ["No se encontraron registros",
   "sin resultados",
   "0 resultados",
   "no se encontró"]

/-- Classification of the POST response body (app.py lines 143-163):
`texto_respuesta = response.text.lower()`; any `no_resultados` phrase (lowered)
found as a substring gives DISPONIBLE; else a `<table>` element (abstracted as
`tieneTabla`, the truth of `soup.find('table')`) or the substrings
"expediente"/"solicitud" give OCUPADA; else VERIFICAR_MANUAL. -/
def clasificar_respuesta (texto : String) (tieneTabla : Bool) : String :=
  let texto_respuesta := lowerStr texto
  if no_resultados.any (fun msg => containsSub texto_respuesta (lowerStr msg)) then
    "DISPONIBLE"
  else if tieneTabla || containsSub texto_respuesta "expediente"
      || containsSub texto_respuesta "solicitud" then
    "OCUPADA"
  else
    "VERIFICAR_MANUAL"

/-- Outcome of one outbound HTTP request of the prober: a response (status
code, body text, and whether the parsed HTML has a `table` element), a
`requests.Timeout`, or any other raised exception. -/
inductive HttpEvent where
  | ok (status : Nat) (body : String) (tieneTabla : Bool)
  | timeout
  | failure (msg : String)
deriving DecidableEq

/-- The registry's behaviour on the two requests of one probe: the bootstrap
GET and the search POST. -/
structure ImpiEnv where
  getEvent : HttpEvent
  postEvent : HttpEvent
deriving DecidableEq

/-- `buscar_en_marcanet_http(marca)` (app.py lines 115-170): GET the bootstrap
URL (non-200 status returns ERROR_CONEXION), POST the query, classify the
body; a `requests.Timeout` raised by either request maps to ERROR_TIMEOUT and
any other exception to ERROR_CONEXION. -/
def buscar_en_marcanet_http (_marca : String) (env : ImpiEnv) : String :=
  match env.getEvent with
  | HttpEvent.timeout => "ERROR_TIMEOUT"
  | HttpEvent.failure _ => "ERROR_CONEXION"
  | HttpEvent.ok status _ _ =>
    if status ≠ 200 then "ERROR_CONEXION"
    else
      match env.postEvent with
      | HttpEvent.timeout => "ERROR_TIMEOUT"
      | HttpEvent.failure _ => "ERROR_CONEXION"
      | HttpEvent.ok _ body tieneTabla => clasificar_respuesta body tieneTabla

/-- The values `buscar_en_marcanet_http` can return (the RegistryOutcome
strings occurring in app.py). -/
def registryOutcomes : List String :=
  ["DISPONIBLE", "OCUPADA", "VERIFICAR_MANUAL", "ERROR_TIMEOUT", "ERROR_CONEXION"]

/-- The critical-alert note of the OCUPADA branch (app.py line 201). -/
def notaOcupada (marca : String) : String :=
  "⚠️ ALERTA CRÍTICA: La marca \x27" ++ marca ++
    "\x27 ya está registrada en el IMPI. Su uso sin autorización podría resultar en infracciones legales."

/-- The replacement recommendations of the OCUPADA branch (app.py lines
202-206). -/
def recomendacionesOcupada : List String :=
  ["Elegir un nombre de marca diferente",
   "Verificar si el registro está vigente o abandonado",
   "Consultar si está en clases diferentes a tu giro"]

/-- The positive-confirmation prefix of the DISPONIBLE branch's note (app.py
line 209); the full note is this prefix followed by the dict's previous
`nota`. -/
def notaDisponiblePrefijo (marca : String) : String :=
  "✅ Buenas noticias: \x27" ++ marca ++ "\x27 no aparece registrada. "

/-- The merge step of `consultar` (app.py lines 196-209): `status_impi` is set
on the dict first, then the OCUPADA branch forces score 5 and replaces note
and recommendations, the DISPONIBLE branch raises the score to
`max(viabilidad, 80)` and prefixes the note, and every other outcome leaves
the rest of the dict untouched. -/
def mergeStep (marca : String) (resultado : AnalysisDict) (disponibilidad : String) :
    AnalysisDict :=
  let resultado := { resultado with status_impi := some disponibilidad }
  if disponibilidad = "OCUPADA" then
    { resultado with
        viabilidad := 5
        nota := notaOcupada marca
        recomendaciones := recomendacionesOcupada }
  else if disponibilidad = "DISPONIBLE" then
    { resultado with
        viabilidad := max resultado.viabilidad 80
        nota := notaDisponiblePrefijo marca ++ resultado.nota }
  else
    resultado

/-- The `lru_cache` of `analizar_con_gemini`, keyed by the `(marca,
descripcion)` argument tuple.  Eviction (maxsize 100) is irrelevant to the
claims and not modelled. -/
def Cache := List ((String × String) × AnalysisDict)

/-- Cache lookup by key. -/
def cacheLookup : Cache → String × String → Option AnalysisDict
  | [], _ => none
  | (k, v) :: rest, key => if k = key then some v else cacheLookup rest key

/-- Overwrite the value stored under a key: this models the Python aliasing by
which mutating the dict returned from the cached function mutates the cache
entry itself. -/
def cacheUpdate : Cache → String × String → AnalysisDict → Cache
  | [], _, _ => []
  | (k, v) :: rest, key, nuevo =>
    if k = key then (k, nuevo) :: rest else (k, v) :: cacheUpdate rest key nuevo

/-- Result of calling the cached `analizar_con_gemini`: the dict handed to the
caller, the cache afterwards, and whether the underlying function ran (an
outbound-service computation) or the value came from the cache. -/
structure AdviseOut where
  resultado : AnalysisDict
  cache : Cache
  outbound : Bool

/-- The `lru_cache` wrapper around `analizar_con_gemini`: a hit returns the
stored dict with no outbound computation; a miss computes and stores it. -/
def advise_cached (c : Cache) (geminiAvailable : Bool) (attempts : List ModelAttempt)
    (marca descripcion : String) : AdviseOut :=
  match cacheLookup c (marca, descripcion) with
  | some r => { resultado := r, cache := c, outbound := false }
  | none =>
    let r := analizar_con_gemini geminiAvailable attempts marca descripcion
    { resultado := r, cache := ((marca, descripcion), r) :: c, outbound := true }

/-- Python `str.strip()` on the character list. -/
def stripChars (l : List Char) : List Char :=
  ((l.dropWhile Char.isWhitespace).reverse.dropWhile Char.isWhitespace).reverse

/-- Python `str.strip()`. -/
def stripStr (s : String) : String := String.mk (stripChars s.data)

/-- Python `str.upper()` (ASCII case mapping, as applied to `marca`). -/
def upperStr (s : String) : String := String.mk (s.data.map Char.toUpper)

/-- The HTTP response of the `/consultar` handler: 400 with an error payload,
or 200 with the merged dict. -/
inductive Respuesta where
  | badRequest (error : String)
  | ok (resultado : AnalysisDict)
deriving DecidableEq

/-- What one run of the handler produces: the response, the advisor cache
afterwards, and the collaborator functions it invoked, in order. -/
structure ConsultarOut where
  response : Respuesta
  cache : Cache
  llamadas : List String

/-- The `/consultar` handler (app.py lines 176-214): read `marca` and
`descripcion` from the JSON body (defaulting to "" when absent), strip them,
return 400 when either is empty; otherwise uppercase `marca`, call the cached
advisor, probe the registry, run the merge step, and return the merged dict.
The cache entry for the key is overwritten with the merged dict because the
Python merge mutates the very dict object the cache holds. -/
def consultar (reqMarca reqDescripcion : Option String) (geminiAvailable : Bool)
    (attempts : List ModelAttempt) (env : ImpiEnv) (c : Cache) : ConsultarOut :=
  let marca0 := stripStr (reqMarca.getD "")
  let descripcion := stripStr (reqDescripcion.getD "")
  if marca0 = "" ∨ descripcion = "" then
    { response := Respuesta.badRequest "Marca y descripción son obligatorias"
      cache := c
      llamadas := [] }
  else
    let marca := upperStr marca0
    let adv := advise_cached c geminiAvailable attempts marca descripcion
    let disponibilidad := buscar_en_marcanet_http marca env
    let merged := mergeStep marca adv.resultado disponibilidad
    { response := Respuesta.ok merged
      cache := cacheUpdate adv.cache (marca, descripcion) merged
      llamadas := ["analizar_con_gemini", "buscar_en_marcanet_http"] }

/-- A concrete clean advisor result with score 70, used as counterexample
input. -/
def r70 : AnalysisDict :=
  { viabilidad := 70
    clases := ["Clase 35: Servicios de publicidad y gestión comercial"]
    nota := "Análisis de viabilidad de la marca"
    recomendaciones := ["Consultar con especialista"] }

/-- A concrete registry environment whose probe classifies as OCUPADA: the
bootstrap GET succeeds with status 200 and the POST body contains
"expediente". -/
def envOcupada : ImpiEnv :=
  { getEvent := HttpEvent.ok 200 "inicio" false
    postEvent := HttpEvent.ok 200 "Resultados: expediente 12345" true }

/-- The classification branch always lands in the outcome enumeration. -/
theorem clasificar_respuesta_mem (texto : String) (tieneTabla : Bool) :
    clasificar_respuesta texto tieneTabla ∈ registryOutcomes := by
  simp only [clasificar_respuesta]
  split
  · decide
  · split
    · decide
    · decide

/-- A successful `primerExito` value comes from a `parses` attempt of the
list. -/
theorem primerExito_mem {attempts : List ModelAttempt} {r : AnalysisDict}
    (h : primerExito attempts = some r) : ModelAttempt.parses r ∈ attempts := by
  induction attempts with
  | nil => simp [primerExito] at h
  | cons a rest ih =>
    cases a with
    | raises m =>
      simp only [primerExito] at h
      exact List.mem_cons_of_mem _ (ih h)
    | parses d =>
      simp only [primerExito, Option.some.injEq] at h
      subst h
      exact List.mem_cons_self _ _

/-- The merge step always records the registry outcome in `status_impi`,
whichever branch fires. -/
theorem mergeStep_status (marca : String) (r : AnalysisDict) (out : String) :
    (mergeStep marca r out).status_impi = some out := by
  unfold mergeStep
  split
  · rfl
  · split
    · rfl
    · rfl

/-- Claim C2 counterexample: merging a clean score-70 result with outcome
VERIFICAR_MANUAL leaves the score at 70 (not 50, no 20-point reduction) and
leaves the note untouched (no manual-verification warning). -/
theorem merge_manual_no_resta :
    (mergeStep "FOO" r70 "VERIFICAR_MANUAL").viabilidad = 70 ∧
    ¬ (mergeStep "FOO" r70 "VERIFICAR_MANUAL").viabilidad = 50 ∧
    (mergeStep "FOO" r70 "VERIFICAR_MANUAL").nota = r70.nota := by decide

/-- Claim C2 (amended): for outcome VERIFICAR_MANUAL the merge step changes
nothing except attaching the outcome under `status_impi`: the score is not
lowered and the note is not replaced. -/
theorem merge_manual_sin_cambios (marca : String) (r : AnalysisDict) :
    mergeStep marca r "VERIFICAR_MANUAL" = { r with status_impi := some "VERIFICAR_MANUAL" } := by
  unfold mergeStep
  rw [if_neg (by decide), if_neg (by decide)]

/-- Claim C3 counterexample: merging a clean score-70 result with outcome
ERROR_CONEXION leaves the score at 70 (not forced to 50) and leaves the note
untouched (no technical-failure warning). -/
theorem merge_error_no_fuerza :
    (mergeStep "FOO" r70 "ERROR_CONEXION").viabilidad = 70 ∧
    ¬ (mergeStep "FOO" r70 "ERROR_CONEXION").viabilidad = 50 ∧
    (mergeStep "FOO" r70 "ERROR_CONEXION").nota = r70.nota := by decide

/-- Claim C3 (amended): for the error outcomes ERROR_TIMEOUT and
ERROR_CONEXION the merge step changes nothing except attaching the outcome
under `status_impi`: the score is not forced to 50 and the note is not
replaced. -/
theorem merge_errores_sin_cambios (marca : String) (r : AnalysisDict) :
    mergeStep marca r "ERROR_TIMEOUT" = { r with status_impi := some "ERROR_TIMEOUT" } ∧
    mergeStep marca r "ERROR_CONEXION" = { r with status_impi := some "ERROR_CONEXION" } := by
  constructor <;> (unfold mergeStep; rw [if_neg (by decide), if_neg (by decide)])

/-- Claim C6: for outcome OCUPADA the merge step forces the score to exactly
5 whatever the original score, replaces the note with the critical-alert
message (which contains the brand name), and replaces the recommendations
with the three fixed legal-consultation items. -/
theorem merge_ocupada_fuerza_cinco (marca : String) (r : AnalysisDict) :
    (mergeStep marca r "OCUPADA").viabilidad = 5 ∧
    (mergeStep marca r "OCUPADA").nota = notaOcupada marca ∧
    marca.data <:+: (notaOcupada marca).data ∧
    (mergeStep marca r "OCUPADA").recomendaciones = recomendacionesOcupada ∧
    recomendacionesOcupada.length = 3 := by
  refine ⟨rfl, rfl, ⟨("⚠️ ALERTA CRÍTICA: La marca \x27").data,
    ("\x27 ya está registrada en el IMPI. Su uso sin autorización podría resultar en infracciones legales.").data,
    rfl⟩, rfl, rfl⟩

/-- Claim C7: for outcome DISPONIBLE the merged score is exactly
`max(original, 80)` — at least 80, never lower than the AI's score — and the
merged note is the positive-confirmation prefix followed by the AI's original
note as a suffix. -/
theorem merge_disponible_max (marca : String) (r : AnalysisDict) :
    (mergeStep marca r "DISPONIBLE").viabilidad = max r.viabilidad 80 ∧
    80 ≤ (mergeStep marca r "DISPONIBLE").viabilidad ∧
    r.viabilidad ≤ (mergeStep marca r "DISPONIBLE").viabilidad ∧
    (mergeStep marca r "DISPONIBLE").nota = notaDisponiblePrefijo marca ++ r.nota ∧
    r.nota.data <:+ (mergeStep marca r "DISPONIBLE").nota.data := by
  refine ⟨rfl, ?_, ?_, rfl, ⟨(notaDisponiblePrefijo marca).data, rfl⟩⟩
  · exact le_max_right _ _
  · exact le_max_left _ _

/-- Claim C10 (implicit frame property): for every outcome other than OCUPADA
and DISPONIBLE, the merge step leaves `viabilidad`, `clases`, `nota` and
`recomendaciones` unchanged and only attaches the outcome as `status_impi`. -/
theorem merge_otros_solo_status (marca : String) (r : AnalysisDict) (out : String)
    (h1 : out ≠ "OCUPADA") (h2 : out ≠ "DISPONIBLE") :
    mergeStep marca r out = { r with status_impi := some out } := by
  unfold mergeStep
  rw [if_neg h1, if_neg h2]

/-- Claim C10 witness: at outcome ERROR_TIMEOUT on the concrete score-70
result, the merge only attaches the status field. -/
theorem merge_otros_solo_status_witness :
    mergeStep "FOO" r70 "ERROR_TIMEOUT" = { r70 with status_impi := some "ERROR_TIMEOUT" } :=
  merge_otros_solo_status "FOO" r70 "ERROR_TIMEOUT" (by decide) (by decide)

/-- Claim C5: the "no results" check runs before the occupancy check — any
body whose lowered text contains one of the lowered `no_resultados` phrases is
classified DISPONIBLE, for every value of the table flag (so even when a table
element or the occupancy substrings are also present). -/
theorem clasificar_no_resultados_primero (texto : String) (tieneTabla : Bool)
    (h : ∃ msg ∈ no_resultados, containsSub (lowerStr texto) (lowerStr msg) = true) :
    clasificar_respuesta texto tieneTabla = "DISPONIBLE" := by
  have hany : (no_resultados.any fun msg => containsSub (lowerStr texto) (lowerStr msg)) = true := by
    rcases h with ⟨msg, hm, hc⟩
    exact List.any_eq_true.mpr ⟨msg, hm, hc⟩
  simp only [clasificar_respuesta]
  rw [if_pos hany]

/-- Claim C5 witness: a body that contains the phrase "No se encontraron
registros" together with a table element, "expediente" and "solicitud" is
still classified DISPONIBLE. -/
theorem clasificar_no_resultados_primero_witness :
    clasificar_respuesta
      "No se encontraron registros <table> expediente solicitud" true = "DISPONIBLE" :=
  clasificar_no_resultados_primero
    "No se encontraron registros <table> expediente solicitud" true
    ⟨"No se encontraron registros", by decide, by decide⟩

/-- A concrete dict a model's response text could parse to, with an
out-of-range viability number. -/
def dict150 : AnalysisDict :=
  { viabilidad := 150
    clases := ["Clase 35: Servicios de publicidad y gestión comercial"]
    nota := "Análisis de viabilidad de la marca"
    recomendaciones := ["Consultar con especialista"] }

/-- A concrete dict a model's response text could parse to, with an in-range
viability number. -/
def dict75 : AnalysisDict :=
  { viabilidad := 75
    clases := ["Clase 35: Servicios de publicidad y gestión comercial"]
    nota := "Análisis de viabilidad de la marca"
    recomendaciones := ["Consultar con especialista"] }

/-- Claim C4 counterexample: the advisor returns a successfully parsed AI
response as-is — when the service's first model parses to a dict with
viability 150, the produced AnalysisResult has viabilidad 150, outside
[0,100]; no clamp exists. -/
theorem analizar_sin_recorte :
    (analizar_con_gemini true [ModelAttempt.parses dict150] "FOO" "bar").viabilidad = 150 ∧
    ¬ ((analizar_con_gemini true [ModelAttempt.parses dict150] "FOO" "bar").viabilidad ≤ 100) := by
  decide

/-- Claim C4 (amended): the two fallback results carry score 50 and the merge
step preserves scores in [0,100], and the advisor's output is in [0,100]
whenever every parsed service response is — but a parsed response is returned
unclamped, so the bound is conditional on the AI's own number. -/
theorem viabilidad_en_rango_condicional (geminiAvailable : Bool)
    (attempts : List ModelAttempt) (marca descripcion : String)
    (h : ∀ r, ModelAttempt.parses r ∈ attempts → 0 ≤ r.viabilidad ∧ r.viabilidad ≤ 100) :
    (0 ≤ (analizar_con_gemini geminiAvailable attempts marca descripcion).viabilidad ∧
      (analizar_con_gemini geminiAvailable attempts marca descripcion).viabilidad ≤ 100) ∧
    ∀ (m : String) (r : AnalysisDict) (out : String),
      0 ≤ r.viabilidad → r.viabilidad ≤ 100 →
      0 ≤ (mergeStep m r out).viabilidad ∧ (mergeStep m r out).viabilidad ≤ 100 := by
  constructor
  · cases geminiAvailable with
    | false =>
      show 0 ≤ fallback_sin_ia.viabilidad ∧ fallback_sin_ia.viabilidad ≤ 100
      decide
    | true =>
      cases hp : primerExito attempts with
      | none =>
        have hres : analizar_con_gemini true attempts marca descripcion = fallback_error := by
          unfold analizar_con_gemini
          rw [hp]
          exact rfl
        rw [hres]
        decide
      | some r =>
        have hres : analizar_con_gemini true attempts marca descripcion = r := by
          unfold analizar_con_gemini
          rw [hp]
          exact rfl
        rw [hres]
        exact h r (primerExito_mem hp)
  · intro m r out h0 h1
    unfold mergeStep
    split
    · exact ⟨show (0 : Int) ≤ 5 by decide, show (5 : Int) ≤ 100 by decide⟩
    · split
      · exact ⟨le_trans h0 (le_max_left _ _), max_le h1 (by decide)⟩
      · exact ⟨h0, h1⟩

/-- Claim C4 witness: with an in-range parsed response (score 75) the
advisor's output is in range, as is the result of merging it with outcome
DISPONIBLE. -/
theorem viabilidad_en_rango_condicional_witness :
    (0 ≤ (analizar_con_gemini true [ModelAttempt.parses dict75] "FOO" "bar").viabilidad ∧
      (analizar_con_gemini true [ModelAttempt.parses dict75] "FOO" "bar").viabilidad ≤ 100) ∧
    (0 ≤ (mergeStep "FOO" dict75 "DISPONIBLE").viabilidad ∧
      (mergeStep "FOO" dict75 "DISPONIBLE").viabilidad ≤ 100) := by
  have h := viabilidad_en_rango_condicional true [ModelAttempt.parses dict75] "FOO" "bar"
    (by
      intro r hr
      have he := List.mem_singleton.mp hr
      injection he with h2
      subst h2
      decide)
  exact ⟨h.1, h.2 "FOO" dict75 "DISPONIBLE" (by decide) (by decide)⟩

/-- Claim C8: the prober is total over every registry behaviour — it always
returns one of the five RegistryOutcome strings — and a `requests.Timeout`
raised by either request yields ERROR_TIMEOUT while any other raised failure
yields ERROR_CONEXION. -/
theorem buscar_total_y_errores :
    (∀ (marca : String) (env : ImpiEnv), buscar_en_marcanet_http marca env ∈ registryOutcomes) ∧
    (∀ (marca : String) (post : HttpEvent),
      buscar_en_marcanet_http marca ⟨HttpEvent.timeout, post⟩ = "ERROR_TIMEOUT") ∧
    (∀ (marca msg : String) (post : HttpEvent),
      buscar_en_marcanet_http marca ⟨HttpEvent.failure msg, post⟩ = "ERROR_CONEXION") ∧
    (∀ (marca body : String) (tieneTabla : Bool),
      buscar_en_marcanet_http marca
        ⟨HttpEvent.ok 200 body tieneTabla, HttpEvent.timeout⟩ = "ERROR_TIMEOUT") ∧
    (∀ (marca body msg : String) (tieneTabla : Bool),
      buscar_en_marcanet_http marca
        ⟨HttpEvent.ok 200 body tieneTabla, HttpEvent.failure msg⟩ = "ERROR_CONEXION") := by
  refine ⟨?_, fun _ _ => rfl, fun _ _ _ => rfl, fun _ _ _ => rfl, fun _ _ _ _ => rfl⟩
  intro marca env
  obtain ⟨g, p⟩ := env
  cases g with
  | timeout => exact (by decide : ("ERROR_TIMEOUT" : String) ∈ registryOutcomes)
  | failure msg => exact (by decide : ("ERROR_CONEXION" : String) ∈ registryOutcomes)
  | ok status body tieneTabla =>
    by_cases hs : status = 200
    · subst hs
      cases p with
      | timeout => exact (by decide : ("ERROR_TIMEOUT" : String) ∈ registryOutcomes)
      | failure msg => exact (by decide : ("ERROR_CONEXION" : String) ∈ registryOutcomes)
      | ok s2 body2 tieneTabla2 => exact clasificar_respuesta_mem body2 tieneTabla2
    · have hres : buscar_en_marcanet_http marca
          ⟨HttpEvent.ok status body tieneTabla, p⟩ = "ERROR_CONEXION" := by
        show (if status ≠ 200 then "ERROR_CONEXION"
              else match p with
                | HttpEvent.timeout => "ERROR_TIMEOUT"
                | HttpEvent.failure _ => "ERROR_CONEXION"
                | HttpEvent.ok _ b t => clasificar_respuesta b t) = "ERROR_CONEXION"
        rw [if_pos hs]
      rw [hres]
      decide

/-- With a missing or (after stripping) empty field, the handler answers the
400 error payload, keeps the cache, and invokes no collaborator. -/
theorem consultar_invalido (reqMarca reqDescripcion : Option String)
    (geminiAvailable : Bool) (attempts : List ModelAttempt) (env : ImpiEnv) (c : Cache)
    (h : stripStr (reqMarca.getD "") = "" ∨ stripStr (reqDescripcion.getD "") = "") :
    consultar reqMarca reqDescripcion geminiAvailable attempts env c =
      { response := Respuesta.badRequest "Marca y descripción son obligatorias"
        cache := c
        llamadas := [] } := by
  simp only [consultar]
  rw [if_pos h]

/-- With both fields non-empty after stripping, the handler's response is the
merged dict and both collaborators were invoked in order. -/
theorem consultar_valido (reqMarca reqDescripcion : Option String)
    (geminiAvailable : Bool) (attempts : List ModelAttempt) (env : ImpiEnv) (c : Cache)
    (h : ¬ (stripStr (reqMarca.getD "") = "" ∨ stripStr (reqDescripcion.getD "") = "")) :
    (consultar reqMarca reqDescripcion geminiAvailable attempts env c).response =
      Respuesta.ok (mergeStep (upperStr (stripStr (reqMarca.getD "")))
        (advise_cached c geminiAvailable attempts (upperStr (stripStr (reqMarca.getD "")))
          (stripStr (reqDescripcion.getD ""))).resultado
        (buscar_en_marcanet_http (upperStr (stripStr (reqMarca.getD ""))) env)) ∧
    (consultar reqMarca reqDescripcion geminiAvailable attempts env c).llamadas =
      ["analizar_con_gemini", "buscar_en_marcanet_http"] := by
  constructor <;> (simp only [consultar]; rw [if_neg h])

/-- Claim C9: the handler answers 400 with the error payload exactly when the
stripped `marca` or the stripped `descripcion` is empty, making no
collaborator calls in that case; otherwise it answers with the merged dict —
which carries the probe's outcome under `status_impi` — after invoking the
advisor and the prober. -/
theorem consultar_validacion (reqMarca reqDescripcion : Option String)
    (geminiAvailable : Bool) (attempts : List ModelAttempt) (env : ImpiEnv) (c : Cache) :
    ((stripStr (reqMarca.getD "") = "" ∨ stripStr (reqDescripcion.getD "") = "") ↔
      (consultar reqMarca reqDescripcion geminiAvailable attempts env c).response =
        Respuesta.badRequest "Marca y descripción son obligatorias") ∧
    ((stripStr (reqMarca.getD "") = "" ∨ stripStr (reqDescripcion.getD "") = "") →
      (consultar reqMarca reqDescripcion geminiAvailable attempts env c).llamadas = []) ∧
    (¬ (stripStr (reqMarca.getD "") = "" ∨ stripStr (reqDescripcion.getD "") = "") →
      ∃ merged : AnalysisDict,
        (consultar reqMarca reqDescripcion geminiAvailable attempts env c).response =
          Respuesta.ok merged ∧
        merged.status_impi =
          some (buscar_en_marcanet_http (upperStr (stripStr (reqMarca.getD ""))) env) ∧
        (consultar reqMarca reqDescripcion geminiAvailable attempts env c).llamadas =
          ["analizar_con_gemini", "buscar_en_marcanet_http"]) := by
  by_cases h : stripStr (reqMarca.getD "") = "" ∨ stripStr (reqDescripcion.getD "") = ""
  · refine ⟨⟨fun _ => ?_, fun _ => h⟩, fun _ => ?_, fun hn => absurd h hn⟩
    · rw [consultar_invalido reqMarca reqDescripcion geminiAvailable attempts env c h]
    · rw [consultar_invalido reqMarca reqDescripcion geminiAvailable attempts env c h]
  · have hv := consultar_valido reqMarca reqDescripcion geminiAvailable attempts env c h
    refine ⟨⟨fun hcond => absurd hcond h, fun hresp => ?_⟩,
      fun hcond => absurd hcond h, fun _ => ?_⟩
    · rw [hv.1] at hresp
      exact Respuesta.noConfusion hresp
    · exact ⟨_, hv.1, mergeStep_status _ _ _, hv.2⟩

/-- Claim C9 witness: a request whose `descripcion` is absent is rejected
with the 400 error payload and no collaborator call, and a request with both
fields present is answered with a merged dict carrying `status_impi`. -/
theorem consultar_validacion_witness :
    ((consultar (some " foo ") none false [] envOcupada []).response =
      Respuesta.badRequest "Marca y descripción son obligatorias") ∧
    ((consultar (some " foo ") none false [] envOcupada []).llamadas = []) ∧
    (∃ merged : AnalysisDict,
      (consultar (some " foo ") (some "bar") false [] envOcupada []).response =
        Respuesta.ok merged ∧
      merged.status_impi =
        some (buscar_en_marcanet_http (upperStr (stripStr " foo ")) envOcupada) ∧
      (consultar (some " foo ") (some "bar") false [] envOcupada []).llamadas =
        ["analizar_con_gemini", "buscar_en_marcanet_http"]) := by
  have h1 := consultar_validacion (some " foo ") none false [] envOcupada []
  have h2 := consultar_validacion (some " foo ") (some "bar") false [] envOcupada []
  exact ⟨h1.1.mp (Or.inr (by decide)), h1.2.1 (Or.inr (by decide)),
    h2.2.2 (by decide)⟩

/-- Claim C1 (evidence of the code bug): with a cold cache the first advisor
call for ("FOO", "bar") computes (outbound) and returns the score-50 fallback;
after one handler run for the same query whose probe found OCUPADA, a second
advisor call with the identical key is a cache hit (no second outbound call)
but returns a dict different from the first call's result — its score is the
merged 5, because the handler mutated the very dict object the cache holds. -/
theorem advise_segunda_llamada_mutada :
    (advise_cached [] false [] "FOO" "bar").resultado = fallback_sin_ia ∧
    (advise_cached [] false [] "FOO" "bar").outbound = true ∧
    (advise_cached (consultar (some "foo") (some "bar") false [] envOcupada []).cache
        false [] "FOO" "bar").outbound = false ∧
    ¬ ((advise_cached (consultar (some "foo") (some "bar") false [] envOcupada []).cache
        false [] "FOO" "bar").resultado = (advise_cached [] false [] "FOO" "bar").resultado) ∧
    (advise_cached (consultar (some "foo") (some "bar") false [] envOcupada []).cache
        false [] "FOO" "bar").resultado.viabilidad = 5 := by
  decide
